import Mathlib

/-!
Shallow embedding of the smart-broadband-3 server.  The repository holds
two variants of the same HTTP API: `src/server.js` (Express + pg against
a PostgreSQL `clients` table) and a supabase-js variant
(`src/unnamed/part_000`).  JSON scalar values are modelled by `JVal`,
rows of the `clients` table by `Client`, request bodies by association
lists, and each Express handler by a pure function from its storage
result — or, for the pg variant whose SQL statements we model directly,
from the table contents — to the HTTP response it sends.  Timestamps are
modelled as integer instants.
-/

namespace SmartBroadband

/-- A JSON scalar value as it appears in request and response bodies. -/
inductive JVal where
  | str (s : String)
  | num (n : Int)
  | jbool (b : Bool)
  | jnull
  deriving Repr, DecidableEq

/-- One row of the `clients` table, with the schema of the
`CREATE TABLE IF NOT EXISTS clients` statement in `src/server.js`:
`id SERIAL PRIMARY KEY`, nine further columns, and the two timestamp
columns.  A column value of `none` is SQL NULL. -/
structure Client where
  id : Nat
  full_name : Option JVal
  email : Option JVal
  phone : Option JVal
  location : Option JVal
  service_type : Option JVal
  serial_number : Option JVal
  price : Option JVal
  supporter : Option JVal
  has_bonus : Option JVal
  created_at : Int
  updated_at : Int
  deriving Repr, DecidableEq

/-- Property lookup on a JSON object, modelled as an association list:
`lookupJ b k` is `b.k` (`none` = the key is absent, i.e. `undefined`). -/
def lookupJ : List (String × JVal) → String → Option JVal
  | [], _ => none
  | (k, v) :: rest, key => if k = key then some v else lookupJ rest key

/-- The column value the pg driver sends for a destructured body
property: an absent key (JS `undefined`) and an explicit JSON `null`
both arrive in the database as SQL NULL. -/
def colOf : Option JVal → Option JVal
  | none => none
  | some .jnull => none
  | some v => some v

/-- The nine mutable fields destructured from the request body by the pg
variant's POST and PUT handlers:
`const { full_name, email, phone, location, service_type, serial_number,
price, supporter, has_bonus } = req.body`. -/
structure MutFields where
  full_name : Option JVal
  email : Option JVal
  phone : Option JVal
  location : Option JVal
  service_type : Option JVal
  serial_number : Option JVal
  price : Option JVal
  supporter : Option JVal
  has_bonus : Option JVal
  deriving Repr, DecidableEq

/-- The JS destructuring of the nine mutable field names from a request
body. -/
def extractMutFields (b : List (String × JVal)) : MutFields :=
  { full_name := lookupJ b "full_name"
    email := lookupJ b "email"
    phone := lookupJ b "phone"
    location := lookupJ b "location"
    service_type := lookupJ b "service_type"
    serial_number := lookupJ b "serial_number"
    price := lookupJ b "price"
    supporter := lookupJ b "supporter"
    has_bonus := lookupJ b "has_bonus" }

/-- The nine mutable column names, in the order of the INSERT column
list in `src/server.js`. -/
def mutFieldKeys : List String :=
  ["full_name", "email", "phone", "location", "service_type",
   "serial_number", "price", "supporter", "has_bonus"]

/-- The JSON body of an HTTP response, one constructor per response
shape occurring in the two variants. -/
inductive RespBody where
  /-- `{ error: msg }` -/
  | errObj (msg : String)
  /-- a bare client row (pg GET by id) or `null` (supabase `res.json(data)`) -/
  | clientObj (c : Option Client)
  /-- `{ message, client }`; `client = none` when `data[0]` was `undefined` -/
  | msgClient (msg : String) (client : Option Client)
  /-- `{ data, currentPage, totalPages, totalClients }` (pg list) -/
  | pagedList (data : List Client) (currentPage : Int)
      (totalPages : Nat) (totalClients : Nat)
  /-- `{ data }` (supabase list; `none` = JSON null) -/
  | bareList (data : Option (List Client))
  deriving Repr, DecidableEq

/-- Does a response body carry the pagination fields `currentPage`,
`totalPages`, `totalClients`? -/
def RespBody.hasPagination : RespBody → Bool
  | .pagedList .. => true
  | _ => false

/-- An HTTP response: status code and JSON body. -/
structure HttpResponse where
  status : Nat
  body : RespBody
  deriving Repr, DecidableEq

/-- An error raised by a pg query (connectivity, constraint or syntax);
the message is the server-side detail that is only ever logged. -/
structure PgError where
  msg : String
  deriving Repr, DecidableEq

/-- The error object of a failed supabase-js call. -/
structure SupaError where
  msg : String
  deriving Repr, DecidableEq

/-- The `{ data, error }` object a supabase-js table call resolves with;
`data = none` models JS `null`. -/
structure SupaResult where
  data : Option (List Client)
  error : Option SupaError
  deriving Repr, DecidableEq

/-- The `{ data, error }` object of a supabase-js `.single()` call. -/
structure SupaSingleResult where
  data : Option Client
  error : Option SupaError
  deriving Repr, DecidableEq

/-! ## Page parameter parsing (pg variant) -/

/-- The raw `page` query parameter: absent, a string `parseInt` cannot
parse (NaN), or one it parses to the integer `n`. -/
inductive PageParam where
  | missing
  | nonNumeric
  | num (n : Int)
  deriving Repr, DecidableEq

/-- `const page = parseInt(req.query.page) || 1`: `NaN` (absent or
non-numeric parameter) and `0` are falsy and default to `1`; every other
integer is kept as is. -/
def parsePage : PageParam → Int
  | .missing => 1
  | .nonNumeric => 1
  | .num n => if n = 0 then 1 else n

/-- `Math.ceil(n / 10)` for a natural number `n`. -/
def jsCeilDiv10 (n : Nat) : Nat := (n + 9) / 10

/-! ## pg variant: SQL semantics -/

/-- `ORDER BY created_at DESC` as a relation: `a` may come before `b`
when `a.created_at ≥ b.created_at`. -/
def createdDescRel (a b : Client) : Prop := b.created_at ≤ a.created_at

instance : DecidableRel createdDescRel :=
  fun a b => inferInstanceAs (Decidable (b.created_at ≤ a.created_at))

instance : IsTotal Client createdDescRel :=
  ⟨fun a b => Int.le_total b.created_at a.created_at⟩

instance : IsTrans Client createdDescRel :=
  ⟨fun _ _ _ h1 h2 => le_trans h2 h1⟩

/-- The table ordered by `created_at` descending (one admissible order;
SQL leaves the order of ties unspecified). -/
def orderByCreatedDesc (table : List Client) : List Client :=
  table.insertionSort createdDescRel

/-- `SELECT * FROM clients ORDER BY created_at DESC LIMIT $1 OFFSET $2`.
PostgreSQL rejects a negative LIMIT or OFFSET with an error. -/
def pgSelectPage (table : List Client) (limit offset : Int) :
    Except PgError (List Client) :=
  if offset < 0 then .error ⟨"OFFSET must not be negative"⟩
  else if limit < 0 then .error ⟨"LIMIT must not be negative"⟩
  else .ok (((orderByCreatedDesc table).drop offset.toNat).take limit.toNat)

/-- `SELECT * FROM clients WHERE id = $1` (also the row set matched by
the UPDATE and DELETE statements below). -/
def pgSelectById (table : List Client) (id : Nat) : List Client :=
  table.filter (fun r => r.id == id)

/-- `INSERT INTO clients (full_name,…,has_bonus) VALUES ($1,…,$9)
RETURNING *`: the statement lists exactly the nine mutable columns, the
storage assigns `id` and sets both timestamps to the insertion instant;
a NULL `full_name` violates the schema's NOT NULL constraint. -/
def pgInsertRow (f : MutFields) (newId : Nat) (now : Int) :
    Except PgError Client :=
  if colOf f.full_name = none then
    .error ⟨"null value in column full_name violates not-null constraint"⟩
  else
    .ok { id := newId
          full_name := colOf f.full_name
          email := colOf f.email
          phone := colOf f.phone
          location := colOf f.location
          service_type := colOf f.service_type
          serial_number := colOf f.serial_number
          price := colOf f.price
          supporter := colOf f.supporter
          has_bonus := colOf f.has_bonus
          created_at := now
          updated_at := now }

/-- The row produced by the PUT handler's UPDATE statement for a matched
row `old`: the SET list covers all nine mutable columns (each taken from
the body parameters) plus `updated_at = NOW()`; `id` and `created_at`
are not in the SET list.  Setting `full_name` to NULL violates the NOT
NULL constraint. -/
def pgUpdateRow (old : Client) (f : MutFields) (now : Int) :
    Except PgError Client :=
  if colOf f.full_name = none then
    .error ⟨"null value in column full_name violates not-null constraint"⟩
  else
    .ok { id := old.id
          full_name := colOf f.full_name
          email := colOf f.email
          phone := colOf f.phone
          location := colOf f.location
          service_type := colOf f.service_type
          serial_number := colOf f.serial_number
          price := colOf f.price
          supporter := colOf f.supporter
          has_bonus := colOf f.has_bonus
          created_at := old.created_at
          updated_at := now }

/-- `UPDATE clients SET … WHERE id=$10 RETURNING *` against the whole
table: the returned rows are the updated matches (empty when no id
matches). -/
def pgUpdateById (table : List Client) (id : Nat) (f : MutFields)
    (now : Int) : Except PgError (List Client) :=
  (pgSelectById table id).mapM (fun r => pgUpdateRow r f now)

/-! ## pg variant: handlers -/

/-- Response shaping of `GET /api/clients` in `src/server.js`, given the
page number and the results of the page SELECT and of
`SELECT COUNT(*) FROM clients` (the count query only runs when the
SELECT succeeded; either failure lands in the same catch branch). -/
def pgListHandlerCore (page : Int) (sel : Except PgError (List Client))
    (cnt : Except PgError Nat) : HttpResponse :=
  match sel with
  | .error _ => ⟨500, .errObj "Failed to fetch clients"⟩
  | .ok rows =>
    match cnt with
    | .error _ => ⟨500, .errObj "Failed to fetch clients"⟩
    | .ok total => ⟨200, .pagedList rows page (jsCeilDiv10 total) total⟩

/-- `GET /api/clients` in `src/server.js`, run against table contents
`table` with raw page parameter `pp`: `limit = 10`,
`offset = (page - 1) * limit`. -/
def pgListHandler (pp : PageParam) (table : List Client) : HttpResponse :=
  let page := parsePage pp
  let offset := (page - 1) * 10
  pgListHandlerCore page (pgSelectPage table 10 offset) (.ok table.length)

/-- Response shaping of `GET /api/clients/:id` in `src/server.js`:
an error lands in the catch branch; zero rows is 404; otherwise
`res.json(result.rows[0])`. -/
def pgGetHandlerCore (qr : Except PgError (List Client)) : HttpResponse :=
  match qr with
  | .error _ => ⟨500, .errObj "Failed to fetch client"⟩
  | .ok [] => ⟨404, .errObj "Client not found"⟩
  | .ok (r :: _) => ⟨200, .clientObj (some r)⟩

/-- `GET /api/clients/:id` in `src/server.js` against table contents
(the storage call itself succeeding). -/
def pgGetHandler (table : List Client) (id : Nat) : HttpResponse :=
  pgGetHandlerCore (.ok (pgSelectById table id))

/-- Response shaping of `POST /api/clients` in `src/server.js`. -/
def pgPostHandlerCore (qr : Except PgError Client) : HttpResponse :=
  match qr with
  | .error _ => ⟨500, .errObj "Failed to add client"⟩
  | .ok r => ⟨200, .msgClient "✅ Client added successfully" (some r)⟩

/-- `POST /api/clients` in `src/server.js`: destructure the nine mutable
fields from the body and insert. -/
def pgPostHandler (b : List (String × JVal)) (newId : Nat) (now : Int) :
    HttpResponse :=
  pgPostHandlerCore (pgInsertRow (extractMutFields b) newId now)

/-- Response shaping of `PUT /api/clients/:id` in `src/server.js`. -/
def pgPutHandlerCore (qr : Except PgError (List Client)) : HttpResponse :=
  match qr with
  | .error _ => ⟨500, .errObj "Failed to update client"⟩
  | .ok [] => ⟨404, .errObj "Client not found"⟩
  | .ok (r :: _) => ⟨200, .msgClient "✅ Client updated successfully" (some r)⟩

/-- `PUT /api/clients/:id` in `src/server.js` against table contents. -/
def pgPutHandler (table : List Client) (id : Nat)
    (b : List (String × JVal)) (now : Int) : HttpResponse :=
  pgPutHandlerCore (pgUpdateById table id (extractMutFields b) now)

/-- Response shaping of `DELETE /api/clients/:id` in `src/server.js`. -/
def pgDeleteHandlerCore (qr : Except PgError (List Client)) : HttpResponse :=
  match qr with
  | .error _ => ⟨500, .errObj "Failed to delete client"⟩
  | .ok [] => ⟨404, .errObj "Client not found"⟩
  | .ok (r :: _) => ⟨200, .msgClient "✅ Client deleted successfully" (some r)⟩

/-- `DELETE /api/clients/:id` in `src/server.js` against table contents
(`DELETE … RETURNING *` returns the removed rows). -/
def pgDeleteHandler (table : List Client) (id : Nat) : HttpResponse :=
  pgDeleteHandlerCore (.ok (pgSelectById table id))

/-! ## Supabase variant: library call semantics

The handlers in `src/unnamed/part_000` never build SQL; they call
supabase-js (v1 interface: `insert`/`update`/`delete` resolve with the
affected rows in `data`) and branch only on the `error` field of the
result, re-shaping `data` into the response. -/

/-- supabase-js `.select('*').eq('id', id).single()`: with no (or more
than one) matching row the call resolves with a non-null error and null
data, never with an empty success. -/
def supaSingleById (table : List Client) (id : Nat) : SupaSingleResult :=
  match pgSelectById table id with
  | [r] => ⟨some r, none⟩
  | _ => ⟨none, some ⟨"JSON object requested, multiple (or no) rows returned"⟩⟩

/-- supabase-js `.delete().eq('id', id)`: resolves with the deleted rows
as `data` and a null error; deleting a non-matching id is a successful
call with `data = []`. -/
def supaDeleteById (table : List Client) (id : Nat) : SupaResult :=
  ⟨some (pgSelectById table id), none⟩

/-- PostgREST PATCH semantics of one column under
`.update(clientData)`: a key absent from the body leaves the stored
value, an explicit JSON `null` sets SQL NULL, any other value replaces
the column. -/
def patchCol (old : Option JVal) (v : Option JVal) : Option JVal :=
  match v with
  | none => old
  | some .jnull => none
  | some w => some w

/-- PATCH semantics of an integer-valued column (timestamps, id). -/
def patchTime (old : Int) (v : Option JVal) : Int :=
  match v with
  | some (.num n) => n
  | _ => old

/-- The row produced by the supabase variant's
`.update(clientData).eq('id', id)` for a matched row `old`: PostgREST
updates exactly the columns whose keys appear in the body — the
timestamps are ordinary columns here, so an `updated_at` absent from
the body is left unchanged (the schema defines no update trigger). -/
def supaUpdateRow (old : Client) (b : List (String × JVal)) : Client :=
  { id := match lookupJ b "id" with
          | some (.num (Int.ofNat n)) => n
          | _ => old.id
    full_name := patchCol old.full_name (lookupJ b "full_name")
    email := patchCol old.email (lookupJ b "email")
    phone := patchCol old.phone (lookupJ b "phone")
    location := patchCol old.location (lookupJ b "location")
    service_type := patchCol old.service_type (lookupJ b "service_type")
    serial_number := patchCol old.serial_number (lookupJ b "serial_number")
    price := patchCol old.price (lookupJ b "price")
    supporter := patchCol old.supporter (lookupJ b "supporter")
    has_bonus := patchCol old.has_bonus (lookupJ b "has_bonus")
    created_at := patchTime old.created_at (lookupJ b "created_at")
    updated_at := patchTime old.updated_at (lookupJ b "updated_at") }

/-! ## Supabase variant: handlers -/

/-- `GET /api/clients` in the supabase variant: no pagination, no limit;
on success it responds `res.json({ data })` only. -/
def supaListHandler (r : SupaResult) : HttpResponse :=
  match r.error with
  | some _ => ⟨500, .errObj "Failed to fetch clients"⟩
  | none => ⟨200, .bareList r.data⟩

/-- `GET /api/clients/:id` in the supabase variant: any error (including
the `.single()` no-row error) is thrown into the catch branch — there is
no 404 path anywhere in this handler. -/
def supaGetHandler (r : SupaSingleResult) : HttpResponse :=
  match r.error with
  | some _ => ⟨500, .errObj "Failed to fetch client"⟩
  | none => ⟨200, .clientObj r.data⟩

/-- `POST /api/clients` in the supabase variant: `data[0]` on a null
`data` throws a TypeError into the same catch branch. -/
def supaPostHandler (r : SupaResult) : HttpResponse :=
  match r.error with
  | some _ => ⟨500, .errObj "Failed to add client"⟩
  | none =>
    match r.data with
    | none => ⟨500, .errObj "Failed to add client"⟩
    | some rows => ⟨200, .msgClient "✅ Client added successfully" rows.head?⟩

/-- `PUT /api/clients/:id` in the supabase variant. -/
def supaPutHandler (r : SupaResult) : HttpResponse :=
  match r.error with
  | some _ => ⟨500, .errObj "Failed to update client"⟩
  | none =>
    match r.data with
    | none => ⟨500, .errObj "Failed to update client"⟩
    | some rows => ⟨200, .msgClient "✅ Client updated successfully" rows.head?⟩

/-- `DELETE /api/clients/:id` in the supabase variant. -/
def supaDeleteHandler (r : SupaResult) : HttpResponse :=
  match r.error with
  | some _ => ⟨500, .errObj "Failed to delete client"⟩
  | none =>
    match r.data with
    | none => ⟨500, .errObj "Failed to delete client"⟩
    | some rows => ⟨200, .msgClient "✅ Client deleted successfully" rows.head?⟩

/-! ## CORS gate and request pipeline -/

/-- The fixed allow-list of `src/server.js`. -/
def allowedOriginsPg : List String :=
  ["http://localhost:3000", "http://localhost:5173",
   "https://smart-broadband-3.vercel.app"]

/-- The allow-list of the supabase variant: two localhost entries plus
the configurable FRONTEND_URL entry (defaulting to the Vite localhost
origin). -/
def allowedOriginsSupa (frontendUrl : Option String) : List String :=
  ["http://localhost:3000", "http://localhost:5173",
   frontendUrl.getD "http://localhost:5173"]

/-- The `origin` callback passed to the cors middleware (identical in
both variants): a missing Origin header is allowed ("allow
curl/postman"), a listed origin is allowed, anything else is answered
with `callback(new Error("Not allowed by CORS"))`. -/
def corsOriginAllows (allowed : List String) (origin : Option String) : Bool :=
  match origin with
  | none => true
  | some o => allowed.contains o

/-- Outcome of one request through the middleware pipeline. -/
inductive RequestOutcome where
  | corsRejected (errMsg : String)
  | handled (resp : HttpResponse) (storageCalls : Nat)
  deriving Repr, DecidableEq

/-- How many storage calls an outcome performed. -/
def RequestOutcome.storageOps : RequestOutcome → Nat
  | .corsRejected _ => 0
  | .handled _ n => n

/-- The middleware pipeline: `app.use(cors(...))` is registered before
every route, so the origin callback decides first; a rejected request
never reaches a handler and makes no storage call.  The handler is
modelled as producing its response together with the number of storage
calls it makes. -/
def processRequest (allowed : List String) (origin : Option String)
    (handler : Unit → HttpResponse × Nat) : RequestOutcome :=
  if corsOriginAllows allowed origin then
    let hr := handler ()
    .handled hr.1 hr.2
  else
    .corsRejected "Not allowed by CORS"

/-! ## Startup -/

/-- What process start reaches. -/
inductive StartupOutcome where
  | exited (code : Nat)
  | listening (port : Nat)
  deriving Repr, DecidableEq

/-- Startup of the supabase variant: `if (!SUPABASE_KEY) {…
process.exit(1) }` runs at module top level, before `app.listen`; both
an unset and an empty-string SUPABASE_KEY are falsy. -/
def supaStartup (supabaseKey : Option String) (port : Nat) : StartupOutcome :=
  match supabaseKey with
  | none => .exited 1
  | some k => if k = "" then .exited 1 else .listening port

/-- Startup of `src/server.js`: the Pool is constructed from whatever
`DATABASE_URL` holds (possibly `undefined`), the connection test and
`createTable` only log their errors, and `app.listen` runs
unconditionally — the file contains no exit path at all. -/
def pgStartup (_databaseUrl : Option String) (port : Nat) : StartupOutcome :=
  .listening port

/-! ## Sample data -/

/-- A concrete stored row used in counterexamples and witnesses. -/
def aliceRow : Client :=
  { id := 1
    full_name := some (.str "Alice")
    email := some (.str "a@x.com")
    phone := none
    location := none
    service_type := none
    serial_number := none
    price := none
    supporter := none
    has_bonus := none
    created_at := 100
    updated_at := 100 }

/-! ## Claims -/

/-- C5, counterexample: a negative page parameter is truthy, so
`parseInt(page) || 1` keeps it; page `-1` gives `OFFSET -20`, which
PostgreSQL rejects, so the handler answers 500 — not the page-1
behavior (200 with the first page). -/
theorem c5_counterexample :
    pgListHandler (.num (-1)) [] = ⟨500, .errObj "Failed to fetch clients"⟩
    ∧ pgListHandler (.num 1) [] = ⟨200, .pagedList [] 1 0 0⟩
    ∧ pgListHandler (.num (-1)) [] ≠ pgListHandler (.num 1) [] := by
  refine ⟨rfl, rfl, ?_⟩
  decide

/-- C5 (amended): a missing, non-numeric, or zero page parameter makes
the list handler behave exactly as page = 1; a negative page, however,
is kept, yields a negative OFFSET, and fails the storage query
(HTTP 500). -/
theorem c5_pageDefaults (pp : PageParam) (table : List Client)
    (h : pp = .missing ∨ pp = .nonNumeric ∨ pp = .num 0) :
    pgListHandler pp table = pgListHandler (.num 1) table := by
  rcases h with h | h | h <;> subst h <;> rfl

/-- C5 witness: the zero page on the empty table. -/
theorem c5_pageDefaults_witness :
    (PageParam.num 0 = .missing ∨ PageParam.num 0 = .nonNumeric
      ∨ PageParam.num 0 = .num 0)
    ∧ pgListHandler (.num 0) [] = pgListHandler (.num 1) [] :=
  ⟨Or.inr (Or.inr rfl),
   c5_pageDefaults (.num 0) [] (Or.inr (Or.inr rfl))⟩

/-- C7: every storage failure at every endpoint of both variants
collapses to HTTP 500 with that endpoint's fixed generic message; the
response does not depend on the error, so any two storage errors at the
same endpoint produce identical responses and the error detail never
reaches the body. -/
theorem c7_storageErrorsCollapsed (e1 e2 : PgError) (se1 se2 : SupaError)
    (p : Int) (cnt : Except PgError Nat) (rows : List Client)
    (d1 d2 : Option (List Client)) (s1 : Option Client) :
    pgListHandlerCore p (.error e1) cnt = ⟨500, .errObj "Failed to fetch clients"⟩
    ∧ pgListHandlerCore p (.error e1) cnt = pgListHandlerCore p (.error e2) cnt
    ∧ pgListHandlerCore p (.ok rows) (.error e1)
        = ⟨500, .errObj "Failed to fetch clients"⟩
    ∧ pgGetHandlerCore (.error e1) = ⟨500, .errObj "Failed to fetch client"⟩
    ∧ pgGetHandlerCore (.error e1) = pgGetHandlerCore (.error e2)
    ∧ pgPostHandlerCore (.error e1) = ⟨500, .errObj "Failed to add client"⟩
    ∧ pgPutHandlerCore (.error e1) = ⟨500, .errObj "Failed to update client"⟩
    ∧ pgDeleteHandlerCore (.error e1) = ⟨500, .errObj "Failed to delete client"⟩
    ∧ supaListHandler ⟨d1, some se1⟩ = ⟨500, .errObj "Failed to fetch clients"⟩
    ∧ supaListHandler ⟨d1, some se1⟩ = supaListHandler ⟨d2, some se2⟩
    ∧ supaGetHandler ⟨s1, some se1⟩ = ⟨500, .errObj "Failed to fetch client"⟩
    ∧ supaPostHandler ⟨d1, some se1⟩ = ⟨500, .errObj "Failed to add client"⟩
    ∧ supaPutHandler ⟨d1, some se1⟩ = ⟨500, .errObj "Failed to update client"⟩
    ∧ supaDeleteHandler ⟨d1, some se1⟩ = ⟨500, .errObj "Failed to delete client"⟩ :=
  ⟨rfl, rfl, rfl, rfl, rfl, rfl, rfl, rfl, rfl, rfl, rfl, rfl, rfl, rfl⟩

/-- C8, counterexample: `src/server.js` with no DATABASE_URL in the
environment still reaches `app.listen` — missing credentials do not
abort startup in the pg variant (connection-test and table-creation
errors are only logged). -/
theorem c8_counterexample :
    pgStartup none 4000 = .listening 4000
    ∧ pgStartup none 4000 ≠ .exited 1 := by
  refine ⟨rfl, ?_⟩
  decide

/-- C8 (amended): in the supabase variant a falsy SUPABASE_KEY (unset or
empty) makes startup exit with code 1 before the server listens; the pg
variant starts listening regardless of its credential. -/
theorem c8_supaAbort (key : Option String) (port : Nat)
    (h : key = none ∨ key = some "") :
    supaStartup key port = .exited 1 := by
  rcases h with h | h <;> subst h <;> rfl

/-- C8 witness: the unset key. -/
theorem c8_supaAbort_witness :
    ((none : Option String) = none ∨ (none : Option String) = some "")
    ∧ supaStartup none 4000 = .exited 1 :=
  ⟨Or.inl rfl, c8_supaAbort none 4000 (Or.inl rfl)⟩

/-- C1, counterexample: in the supabase variant, deleting an id with no
matching record is a successful storage call (null `error`,
`data = []`), and the handler answers 200 with the success message and
no client — not 404 and not `{error: "Client not found"}` (that body
never occurs in the supabase variant). -/
theorem c1_counterexample :
    supaDeleteHandler (supaDeleteById [] 1)
      = ⟨200, .msgClient "✅ Client deleted successfully" none⟩
    ∧ (supaDeleteHandler (supaDeleteById [] 1)).status ≠ 404 := by
  refine ⟨rfl, ?_⟩
  decide

/-- C1 (amended): in the pg variant, when the id matches no row and the
storage call itself succeeds, GET, PUT and DELETE `/api/clients/:id`
all answer 404 `{error: "Client not found"}` — in particular never
500. -/
theorem c1_pgNotFound (table : List Client) (id : Nat)
    (b : List (String × JVal)) (now : Int)
    (h : ∀ r ∈ table, r.id ≠ id) :
    pgGetHandler table id = ⟨404, .errObj "Client not found"⟩
    ∧ pgPutHandler table id b now = ⟨404, .errObj "Client not found"⟩
    ∧ pgDeleteHandler table id = ⟨404, .errObj "Client not found"⟩ := by
  have hsel : pgSelectById table id = [] := by
    simp only [pgSelectById, List.filter_eq_nil_iff]
    intro r hr
    simpa using h r hr
  refine ⟨?_, ?_, ?_⟩
  · simp [pgGetHandler, hsel, pgGetHandlerCore]
  · simp only [pgPutHandler, pgUpdateById, hsel]
    rfl
  · simp [pgDeleteHandler, hsel, pgDeleteHandlerCore]

/-- C1 witness: id 1 on the empty table. -/
theorem c1_pgNotFound_witness :
    (∀ r ∈ ([] : List Client), r.id ≠ 1)
    ∧ (pgGetHandler [] 1 = ⟨404, .errObj "Client not found"⟩
       ∧ pgPutHandler [] 1 [] 0 = ⟨404, .errObj "Client not found"⟩
       ∧ pgDeleteHandler [] 1 = ⟨404, .errObj "Client not found"⟩) :=
  ⟨by simp, c1_pgNotFound [] 1 [] 0 (by simp)⟩

/-- C2, counterexample: the supabase variant's list handler responds
`{ data }` only — no `currentPage`, `totalPages` or `totalClients`
fields, no page-size limit. -/
theorem c2_counterexample :
    supaListHandler ⟨some [], none⟩ = ⟨200, .bareList (some [])⟩
    ∧ (supaListHandler ⟨some [], none⟩).body.hasPagination = false :=
  ⟨rfl, rfl⟩

/-- C2 (amended): in the pg variant, every successful list request
responds 200 with `{data, currentPage, totalPages, totalClients}`,
where `totalPages` is the ceiling of `totalClients / 10` (characterised
as the least `m` with `totalClients ≤ 10 * m`), `data` holds at most 10
records ordered by `created_at` descending, and an empty table yields
`data = []` and `totalPages = 0`. -/
theorem c2_pgPagination (pp : PageParam) (table : List Client)
    (h : 1 ≤ parsePage pp) :
    ∃ rows, pgListHandler pp table
        = ⟨200, .pagedList rows (parsePage pp) (jsCeilDiv10 table.length)
              table.length⟩
      ∧ rows.length ≤ 10
      ∧ rows.Pairwise createdDescRel
      ∧ table.length ≤ 10 * jsCeilDiv10 table.length
      ∧ (∀ m : Nat, table.length ≤ 10 * m → jsCeilDiv10 table.length ≤ m)
      ∧ (table = [] → rows = [] ∧ jsCeilDiv10 table.length = 0) := by
  have hoff : ¬ ((parsePage pp - 1) * 10 < 0) := by omega
  refine ⟨((orderByCreatedDesc table).drop
            ((parsePage pp - 1) * 10).toNat).take (10 : Int).toNat,
         ?_, ?_, ?_, ?_, ?_, ?_⟩
  · simp [pgListHandler, pgSelectPage, hoff, pgListHandlerCore]
  · simp
  · exact List.Pairwise.sublist
      ((List.take_sublist _ _).trans (List.drop_sublist _ _))
      (List.sorted_insertionSort createdDescRel table)
  · simp only [jsCeilDiv10]; omega
  · intro m hm; simp only [jsCeilDiv10]; omega
  · intro ht; subst ht; exact ⟨by simp [orderByCreatedDesc], rfl⟩

/-- C2 witness: page 2 on the empty table. -/
theorem c2_pgPagination_witness :
    1 ≤ parsePage (.num 2)
    ∧ ∃ rows, pgListHandler (.num 2) []
        = ⟨200, .pagedList rows (parsePage (.num 2))
              (jsCeilDiv10 ([] : List Client).length)
              ([] : List Client).length⟩
      ∧ rows.length ≤ 10
      ∧ rows.Pairwise createdDescRel
      ∧ ([] : List Client).length ≤ 10 * jsCeilDiv10 ([] : List Client).length
      ∧ (∀ m : Nat, ([] : List Client).length ≤ 10 * m
            → jsCeilDiv10 ([] : List Client).length ≤ m)
      ∧ (([] : List Client) = [] → rows = []
            ∧ jsCeilDiv10 ([] : List Client).length = 0) :=
  ⟨by decide, c2_pgPagination (.num 2) [] (by decide)⟩

/-- C10: in the pg variant, a page past the last record still answers
200 with empty `data` and the page echoed unclamped — never a 404 and
never a clamp to the last page. -/
theorem c10_pastEndPage (p : Int) (table : List Client)
    (h1 : 1 ≤ p) (h2 : (table.length : Int) ≤ (p - 1) * 10) :
    pgListHandler (.num p) table
      = ⟨200, .pagedList [] p (jsCeilDiv10 table.length) table.length⟩ := by
  have hp0 : ¬ p = 0 := by omega
  have hp : parsePage (.num p) = p := by simp [parsePage, hp0]
  have hoff : ¬ ((p - 1) * 10 < 0) := by omega
  have hlen : (orderByCreatedDesc table).length ≤ ((p - 1) * 10).toNat := by
    have hl : (orderByCreatedDesc table).length = table.length :=
      List.length_insertionSort createdDescRel table
    omega
  simp [pgListHandler, hp, pgSelectPage, hoff, pgListHandlerCore,
        List.drop_eq_nil_of_le hlen]

/-- C10 witness: page 3 with one stored record. -/
theorem c10_pastEndPage_witness :
    1 ≤ (3 : Int)
    ∧ (([aliceRow] : List Client).length : Int) ≤ (3 - 1) * 10
    ∧ pgListHandler (.num 3) [aliceRow]
        = ⟨200, .pagedList [] 3 (jsCeilDiv10 ([aliceRow] : List Client).length)
              ([aliceRow] : List Client).length⟩ :=
  ⟨by decide, by decide, c10_pastEndPage 3 [aliceRow] (by decide) (by decide)⟩

/-- A request body that provides only `full_name`. -/
def renameBody : List (String × JVal) := [("full_name", .str "Alice B.")]

/-- The row the pg variant's UPDATE produces from `aliceRow` and
`renameBody` at instant 200: every omitted mutable column is NULL. -/
def aliceRenamed : Client :=
  { id := 1
    full_name := some (.str "Alice B.")
    email := none
    phone := none
    location := none
    service_type := none
    serial_number := none
    price := none
    supporter := none
    has_bonus := none
    created_at := 100
    updated_at := 200 }

/-- C3, counterexample: the supabase variant's `.update(clientData)` is
a partial patch — updating `aliceRow` with a body that omits `email`
leaves the stored `email` as it was, instead of setting it to
absent/null as the claim requires. -/
theorem c3_counterexample :
    (supaUpdateRow aliceRow renameBody).email = some (.str "a@x.com")
    ∧ (supaUpdateRow aliceRow renameBody).email ≠ none := by
  refine ⟨rfl, ?_⟩
  decide

/-- C3 (amended): in the pg variant, a successful UPDATE replaces all
nine mutable columns wholesale from the body — an omitted field arrives
as SQL NULL (so e.g. an absent `email` key yields a NULL `email`) —
while `id` and `created_at` are untouched and `updated_at` is set to
the update instant. -/
theorem c3_pgFullReplace (old : Client) (b : List (String × JVal))
    (now : Int) (r : Client)
    (h : pgUpdateRow old (extractMutFields b) now = .ok r) :
    r.full_name = colOf (lookupJ b "full_name")
    ∧ r.email = colOf (lookupJ b "email")
    ∧ r.phone = colOf (lookupJ b "phone")
    ∧ r.location = colOf (lookupJ b "location")
    ∧ r.service_type = colOf (lookupJ b "service_type")
    ∧ r.serial_number = colOf (lookupJ b "serial_number")
    ∧ r.price = colOf (lookupJ b "price")
    ∧ r.supporter = colOf (lookupJ b "supporter")
    ∧ r.has_bonus = colOf (lookupJ b "has_bonus")
    ∧ (lookupJ b "email" = none → r.email = none)
    ∧ r.id = old.id
    ∧ r.created_at = old.created_at
    ∧ r.updated_at = now := by
  rw [pgUpdateRow] at h
  split at h
  · exact absurd h (by simp)
  · injection h with h'
    subst h'
    refine ⟨rfl, rfl, rfl, rfl, rfl, rfl, rfl, rfl, rfl, ?_, rfl, rfl, rfl⟩
    intro he
    show colOf (extractMutFields b).email = none
    rw [show (extractMutFields b).email = lookupJ b "email" from rfl, he]
    rfl

/-- C3 witness: renaming `aliceRow` with a body holding only
`full_name`. -/
theorem c3_pgFullReplace_witness :
    pgUpdateRow aliceRow (extractMutFields renameBody) 200 = .ok aliceRenamed
    ∧ (aliceRenamed.full_name = colOf (lookupJ renameBody "full_name")
       ∧ aliceRenamed.email = colOf (lookupJ renameBody "email")
       ∧ aliceRenamed.phone = colOf (lookupJ renameBody "phone")
       ∧ aliceRenamed.location = colOf (lookupJ renameBody "location")
       ∧ aliceRenamed.service_type = colOf (lookupJ renameBody "service_type")
       ∧ aliceRenamed.serial_number = colOf (lookupJ renameBody "serial_number")
       ∧ aliceRenamed.price = colOf (lookupJ renameBody "price")
       ∧ aliceRenamed.supporter = colOf (lookupJ renameBody "supporter")
       ∧ aliceRenamed.has_bonus = colOf (lookupJ renameBody "has_bonus")
       ∧ (lookupJ renameBody "email" = none → aliceRenamed.email = none)
       ∧ aliceRenamed.id = aliceRow.id
       ∧ aliceRenamed.created_at = aliceRow.created_at
       ∧ aliceRenamed.updated_at = 200) :=
  ⟨rfl, c3_pgFullReplace aliceRow renameBody 200 aliceRenamed rfl⟩

/-- C4, counterexample: the supabase variant's update does not touch
`updated_at` (no SET of `updated_at`, no trigger in the schema) — after
updating `aliceRow` with `renameBody` the stored `updated_at` is still
the old instant 100, not a strictly later one. -/
theorem c4_counterexample :
    (supaUpdateRow aliceRow renameBody).updated_at = 100
    ∧ ¬ aliceRow.updated_at < (supaUpdateRow aliceRow renameBody).updated_at := by
  refine ⟨rfl, ?_⟩
  decide

/-- C4 (amended): in the pg variant, a successful update at a strictly
later instant sets `updated_at` to that instant and leaves `created_at`
unchanged, preserving `updated_at ≥ created_at`; freshly inserted rows
satisfy the invariant as well (both timestamps equal the insertion
instant). -/
theorem c4_pgTimestamps (old : Client) (f : MutFields) (now : Int)
    (r : Client) (h : pgUpdateRow old f now = .ok r)
    (hnow : old.updated_at < now)
    (hinv : old.created_at ≤ old.updated_at) :
    r.created_at = old.created_at
    ∧ r.updated_at = now
    ∧ old.updated_at < r.updated_at
    ∧ r.created_at ≤ r.updated_at
    ∧ (∀ (g : MutFields) (newId : Nat) (t : Int) (c : Client),
        pgInsertRow g newId t = .ok c → c.created_at ≤ c.updated_at) := by
  have hins : ∀ (g : MutFields) (newId : Nat) (t : Int) (c : Client),
      pgInsertRow g newId t = .ok c → c.created_at ≤ c.updated_at := by
    intro g newId t c hc
    rw [pgInsertRow] at hc
    split at hc
    · exact absurd hc (by simp)
    · injection hc with hc'
      subst hc'
      exact le_refl _
  rw [pgUpdateRow] at h
  split at h
  · exact absurd h (by simp)
  · injection h with h'
    subst h'
    exact ⟨rfl, rfl, hnow, le_trans hinv (le_of_lt hnow), hins⟩

/-- C4 witness: updating `aliceRow` (timestamps 100) at instant 200. -/
theorem c4_pgTimestamps_witness :
    pgUpdateRow aliceRow (extractMutFields renameBody) 200 = .ok aliceRenamed
    ∧ aliceRow.updated_at < 200
    ∧ aliceRow.created_at ≤ aliceRow.updated_at
    ∧ (aliceRenamed.created_at = aliceRow.created_at
       ∧ aliceRenamed.updated_at = 200
       ∧ aliceRow.updated_at < aliceRenamed.updated_at
       ∧ aliceRenamed.created_at ≤ aliceRenamed.updated_at
       ∧ (∀ (g : MutFields) (newId : Nat) (t : Int) (c : Client),
           pgInsertRow g newId t = .ok c → c.created_at ≤ c.updated_at)) :=
  ⟨rfl, by decide, by decide,
   c4_pgTimestamps aliceRow (extractMutFields renameBody) 200 aliceRenamed
     rfl (by decide) (by decide)⟩

/-- A sample handler for the CORS pipeline witness: it would answer 200
and make one storage call. -/
def demoHandler : Unit → HttpResponse × Nat :=
  fun _ => (⟨200, .bareList (some [])⟩, 1)

/-- C6: an Origin not on the allow-list is rejected by the cors
middleware with the "Not allowed by CORS" error before any handler runs
— zero storage calls — and a request with no Origin header is admitted
to its handler unchanged. -/
theorem c6_corsGate (allowed : List String) (o : String)
    (handler : Unit → HttpResponse × Nat) (h : o ∉ allowed) :
    processRequest allowed (some o) handler
      = .corsRejected "Not allowed by CORS"
    ∧ (processRequest allowed (some o) handler).storageOps = 0
    ∧ processRequest allowed none handler
        = .handled (handler ()).1 (handler ()).2 := by
  have hc : corsOriginAllows allowed (some o) = false := by
    simp [corsOriginAllows, h]
  refine ⟨?_, ?_, rfl⟩
  · simp [processRequest, hc]
  · simp [processRequest, hc, RequestOutcome.storageOps]

/-- C6 witness: `https://evil.example` against the pg variant's
allow-list. -/
theorem c6_corsGate_witness :
    "https://evil.example" ∉ allowedOriginsPg
    ∧ (processRequest allowedOriginsPg (some "https://evil.example") demoHandler
        = .corsRejected "Not allowed by CORS"
       ∧ (processRequest allowedOriginsPg (some "https://evil.example")
            demoHandler).storageOps = 0
       ∧ processRequest allowedOriginsPg none demoHandler
           = .handled (demoHandler ()).1 (demoHandler ()).2) :=
  ⟨by decide,
   c6_corsGate allowedOriginsPg "https://evil.example" demoHandler (by decide)⟩

/-- C9: the pg variant's create handler destructures exactly the nine
mutable field names from the body, so adding any other property — an
`id`, `created_at`, `updated_at` or arbitrary key — leaves the INSERT
result unchanged. -/
theorem c9_insertFrame (b : List (String × JVal)) (k : String) (v : JVal)
    (newId : Nat) (now : Int) (h : k ∉ mutFieldKeys) :
    pgInsertRow (extractMutFields ((k, v) :: b)) newId now
      = pgInsertRow (extractMutFields b) newId now := by
  have hx : extractMutFields ((k, v) :: b) = extractMutFields b := by
    simp only [mutFieldKeys, List.mem_cons, List.not_mem_nil, or_false,
      not_or] at h
    obtain ⟨h1, h2, h3, h4, h5, h6, h7, h8, h9⟩ := h
    simp [extractMutFields, lookupJ, h1, h2, h3, h4, h5, h6, h7, h8, h9]
  rw [hx]

/-- C9 witness: an `id` property in the body does not change the
inserted record. -/
theorem c9_insertFrame_witness :
    "id" ∉ mutFieldKeys
    ∧ pgInsertRow (extractMutFields (("id", JVal.num 99) :: renameBody)) 1 100
        = pgInsertRow (extractMutFields renameBody) 1 100 :=
  ⟨by decide, c9_insertFrame renameBody "id" (.num 99) 1 100 (by decide)⟩

end SmartBroadband
